import Mathlib

/-!
Shallow embedding of the Snake game core from `src/unnamed/part_000`
(a React component) and verification of its specification.

Modelling conventions:
* JavaScript numbers that only ever hold integers are modelled as `ℤ`
  (coordinates can go negative, e.g. `{-1,5}`).
* `Math.random()` returns a real number in `[0,1)`; it is modelled as an
  explicit parameter `r : ℚ` threaded to the functions that consume it
  (`getRandomNumberFromRange`, `getRandomCoordinate`), with the range
  assumption `0 ≤ r ∧ r < 1` stated where needed.
* The React component state (`gameState`, `currentDirection`,
  `lastDirection`, `snake`, `food`) is collected into a structure
  `AppState`; the `setX` calls of `gameTick` and `onKeyDown` become a
  pure state-transition function each.
* `~~x` (double bitwise-not) on a non-negative number is truncating
  division, modelled with `ℤ` division.
* `snake[0]` is modelled with `List.headI` (the snake is never empty in
  any reachable state, which is proved below).
* `snake.slice(0, snake.length - 1)` is `List.take (snake.length - 1)`.
-/

namespace Snek

/-- `const gridRows = 20`. -/
def gridRows : ℤ := 20

/-- `const gridColumns = 20`. -/
def gridColumns : ℤ := 20

/-- `enum GameState { Playing, Win, Loss }`. -/
inductive GameState where
  | Playing
  | Win
  | Loss
deriving DecidableEq, Repr

/-- `enum Direction { North, South, West, East }`. -/
inductive Direction where
  | North
  | South
  | West
  | East
deriving DecidableEq, Repr

/-- `type Coordinate = { x: number; y: number }`. -/
structure Coordinate where
  x : ℤ
  y : ℤ
deriving DecidableEq, Repr

instance : Inhabited Coordinate := ⟨⟨0, 0⟩⟩

/-- `Math.floor(Math.random() * (max - min + 1) + min)`, with
`Math.random()` made explicit as the argument `r`. -/
def getRandomNumberFromRange (min max : ℤ) (r : ℚ) : ℤ :=
  ⌊r * ((max : ℚ) - (min : ℚ) + 1) + (min : ℚ)⌋

/-- `getRandomCoordinate`: x and y drawn independently from
`[0, gridRows-1]` resp. `[0, gridColumns-1]`; the two `Math.random()`
outcomes are the explicit arguments `r1`, `r2`. -/
def getRandomCoordinate (r1 r2 : ℚ) : Coordinate :=
  { x := getRandomNumberFromRange 0 (gridRows - 1) r1
    y := getRandomNumberFromRange 0 (gridColumns - 1) r2 }

/-- `getCenterCoordinate`: `{ x: ~~(gridRows / 2), y: ~~(gridColumns / 2) }`. -/
def getCenterCoordinate : Coordinate :=
  { x := gridRows / 2, y := gridColumns / 2 }

/-- `getNextCoordinate(current, direction)`. -/
def getNextCoordinate (current : Coordinate) (direction : Direction) : Coordinate :=
  if direction = Direction.North then { x := current.x, y := current.y - 1 }
  else if direction = Direction.South then { x := current.x, y := current.y + 1 }
  else if direction = Direction.West then { x := current.x - 1, y := current.y }
  else if direction = Direction.East then { x := current.x + 1, y := current.y }
  else current

/-- `isSameCoordinate(a, b)`: `a.x === b.x && a.y === b.y`. -/
def isSameCoordinate (a b : Coordinate) : Prop :=
  a.x = b.x ∧ a.y = b.y

instance (a b : Coordinate) : Decidable (isSameCoordinate a b) := by
  unfold isSameCoordinate; infer_instance

/-- `isOutOfBounds({x, y})`: `x < 0 || x >= gridColumns || y < 0 || y >= gridRows`. -/
def isOutOfBounds (c : Coordinate) : Prop :=
  c.x < 0 ∨ c.x ≥ gridColumns ∨ c.y < 0 ∨ c.y ≥ gridRows

instance (c : Coordinate) : Decidable (isOutOfBounds c) := by
  unfold isOutOfBounds; infer_instance

/-- `getGameSpeed(snakeLength)`: percentage-of-grid-filled lookup table.
The locals `gridCells = gridRows * gridColumns` and
`percentageCompleted = (snakeLength / gridCells) * 100` are inlined. -/
def getGameSpeed (snakeLength : ℕ) : ℕ :=
  if ((snakeLength : ℚ) / ((gridRows * gridColumns : ℤ) : ℚ)) * 100 < 5 then 200
  else if ((snakeLength : ℚ) / ((gridRows * gridColumns : ℤ) : ℚ)) * 100 < 15 then 180
  else if ((snakeLength : ℚ) / ((gridRows * gridColumns : ℤ) : ℚ)) * 100 < 30 then 155
  else if ((snakeLength : ℚ) / ((gridRows * gridColumns : ℤ) : ℚ)) * 100 < 50 then 125
  else if ((snakeLength : ℚ) / ((gridRows * gridColumns : ℤ) : ℚ)) * 100 < 75 then 90
  else 50

/-- The React component state of `App`: the five `useState` cells. -/
structure AppState where
  gameState : GameState
  currentDirection : Direction
  lastDirection : Direction
  snake : List Coordinate
  food : Coordinate
deriving DecidableEq, Repr

/-- The initial component state:
`gameState = Playing`, `currentDirection = East`,
`lastDirection = currentDirection`, `snake = [getCenterCoordinate()]`,
`food = getRandomCoordinate()` (random outcomes `r1`, `r2`). -/
def initialState (r1 r2 : ℚ) : AppState :=
  { gameState := GameState.Playing
    currentDirection := Direction.East
    lastDirection := Direction.East
    snake := [getCenterCoordinate]
    food := getRandomCoordinate r1 r2 }

/-- `gameTick`: one tick of the game loop, as a pure state transition.
`r1`, `r2` are the `Math.random()` outcomes consumed by
`getRandomCoordinate()` in the food-capture branch (unused otherwise). -/
def gameTick (s : AppState) (r1 r2 : ℚ) : AppState :=
  -- setLastDirection(currentDirection)
  let s1 := { s with lastDirection := s.currentDirection }
  -- const nextCoordinate = getNextCoordinate(snake[0], currentDirection)
  let nextCoordinate := getNextCoordinate s.snake.headI s.currentDirection
  if isOutOfBounds nextCoordinate then
    { s1 with gameState := GameState.Loss }
  else if ∃ c ∈ s.snake, isSameCoordinate c nextCoordinate then
    { s1 with gameState := GameState.Loss }
  else if isSameCoordinate s.food nextCoordinate then
    { s1 with
      food := getRandomCoordinate r1 r2
      snake := { x := s.food.x, y := s.food.y } :: s.snake }
  else
    { s1 with snake := nextCoordinate :: s.snake.take (s.snake.length - 1) }

/-- `onKeyDown({code})`: the keyboard handler, as a pure state
transition.  `r1`, `r2` are the `Math.random()` outcomes consumed by
`getRandomCoordinate()` in the restart branch (unused otherwise). -/
def onKeyDown (code : String) (r1 r2 : ℚ) (s : AppState) : AppState :=
  if code = "Space" ∧ s.gameState ≠ GameState.Playing then
    { gameState := GameState.Playing
      currentDirection := Direction.East
      lastDirection := Direction.East
      snake := [getCenterCoordinate]
      food := getRandomCoordinate r1 r2 }
  else if code = "ArrowUp" ∧ s.lastDirection ≠ Direction.South then
    { s with currentDirection := Direction.North }
  else if code = "ArrowDown" ∧ s.lastDirection ≠ Direction.North then
    { s with currentDirection := Direction.South }
  else if code = "ArrowLeft" ∧ s.lastDirection ≠ Direction.East then
    { s with currentDirection := Direction.West }
  else if code = "ArrowRight" ∧ s.lastDirection ≠ Direction.West then
    { s with currentDirection := Direction.East }
  else s

/-- One step of the whole system: either a timer tick (the `useInterval`
driver only fires while `gameState = Playing` — the interval is `null`
otherwise) or a keyboard event.  Each `Math.random()` outcome lies in
`[0,1)`. -/
inductive Step : AppState → AppState → Prop where
  | tick (s : AppState) (r1 r2 : ℚ)
      (hr1 : 0 ≤ r1 ∧ r1 < 1) (hr2 : 0 ≤ r2 ∧ r2 < 1)
      (hp : s.gameState = GameState.Playing) :
      Step s (gameTick s r1 r2)
  | key (s : AppState) (code : String) (r1 r2 : ℚ)
      (hr1 : 0 ≤ r1 ∧ r1 < 1) (hr2 : 0 ≤ r2 ∧ r2 < 1) :
      Step s (onKeyDown code r1 r2 s)

/-- Reachability from a given state through `Step`. -/
def Reachable (s t : AppState) : Prop :=
  Relation.ReflTransGen Step s t

end Snek

namespace Snek

/-! ### Basic lemmas about the geometry helpers -/

/-- `isSameCoordinate` is structural equality of coordinates. -/
lemma isSameCoordinate_iff {a b : Coordinate} : isSameCoordinate a b ↔ a = b := by
  cases a; cases b
  simp [isSameCoordinate, Coordinate.mk.injEq]

/-- With a random outcome in `[0,1)` and `min ≤ max`, the drawn number
lies in `[min, max]`. -/
lemma getRandomNumberFromRange_bounds {min max : ℤ} {r : ℚ}
    (h0 : 0 ≤ r) (h1 : r < 1) (hmm : min ≤ max) :
    min ≤ getRandomNumberFromRange min max r ∧
      getRandomNumberFromRange min max r ≤ max := by
  unfold getRandomNumberFromRange
  have hmm' : (min : ℚ) ≤ (max : ℚ) := by exact_mod_cast hmm
  have hspan : (0 : ℚ) ≤ (max : ℚ) - (min : ℚ) + 1 := by linarith
  constructor
  · rw [Int.le_floor]
    nlinarith
  · have hlt : ⌊r * ((max : ℚ) - (min : ℚ) + 1) + (min : ℚ)⌋ < max + 1 := by
      rw [Int.floor_lt]
      push_cast
      nlinarith
    omega

end Snek

namespace Snek

/-- `getGameSpeed` is antitone: a longer snake never gets a longer
tick interval. -/
lemma getGameSpeed_antitone {s1 s2 : ℕ} (h : s1 ≤ s2) :
    getGameSpeed s2 ≤ getGameSpeed s1 := by
  have hc : (s1 : ℚ) ≤ (s2 : ℚ) := by exact_mod_cast h
  unfold getGameSpeed gridRows gridColumns
  split_ifs with h1 h2 h3 h4 h5 h6 h7 h8 h9 h10 h11 h12 h13 h14 h15 h16
    h17 h18 h19 h20 h21 h22 h23 h24 h25 h26 h27 h28 h29 h30 <;>
    push_cast at * <;> try norm_num
  all_goals linarith

/-- C7 (counterexample): `getGameSpeed` is not strictly decreasing on
`[1, 400]`: lengths 1 and 2 both fall in the `< 5` percent bucket, so
`getGameSpeed 2 = getGameSpeed 1 = 200`. -/
theorem getGameSpeed_not_strictly_decreasing :
    1 ≤ 1 ∧ 1 < 2 ∧ 2 ≤ 400 ∧ ¬ getGameSpeed 2 < getGameSpeed 1 := by
  refine ⟨le_refl 1, by norm_num, by norm_num, ?_⟩
  unfold getGameSpeed gridRows gridColumns
  norm_num

/-- C7 (amended): `getGameSpeed` yields a non-increasing (not strictly
decreasing) tick interval as the snake grows: for all snake lengths
`s1 < s2` in `[1, 400]`, `getGameSpeed s2 ≤ getGameSpeed s1`; as a pure
function of the length it has no side effects. -/
theorem getGameSpeed_nonincreasing (s1 s2 : ℕ)
    (hs1 : 1 ≤ s1) (h12 : s1 < s2) (hs2 : s2 ≤ 400) :
    getGameSpeed s2 ≤ getGameSpeed s1 :=
  getGameSpeed_antitone (le_of_lt h12)

/-- Witness for the amended C7 at `s1 = 1`, `s2 = 2`. -/
theorem getGameSpeed_nonincreasing_witness :
    getGameSpeed 2 ≤ getGameSpeed 1 :=
  getGameSpeed_nonincreasing 1 2 (by norm_num) (by norm_num) (by norm_num)

/-- C10: for all random outcomes `r1, r2 ∈ [0,1)`, `getRandomCoordinate`
returns a coordinate with both components in `[0, 19]`, so
`isOutOfBounds` is false on it; in particular the initial food
coordinate lies on the 20×20 grid. -/
theorem getRandomCoordinate_in_bounds (r1 r2 : ℚ)
    (h1 : 0 ≤ r1) (h2 : r1 < 1) (h3 : 0 ≤ r2) (h4 : r2 < 1) :
    (0 ≤ (getRandomCoordinate r1 r2).x ∧ (getRandomCoordinate r1 r2).x ≤ 19) ∧
    (0 ≤ (getRandomCoordinate r1 r2).y ∧ (getRandomCoordinate r1 r2).y ≤ 19) ∧
    ¬ isOutOfBounds (getRandomCoordinate r1 r2) ∧
    ¬ isOutOfBounds (initialState r1 r2).food := by
  have hx := getRandomNumberFromRange_bounds h1 h2
    (show (0 : ℤ) ≤ gridRows - 1 by norm_num [gridRows])
  have hy := getRandomNumberFromRange_bounds h3 h4
    (show (0 : ℤ) ≤ gridColumns - 1 by norm_num [gridColumns])
  simp only [getRandomCoordinate, initialState, isOutOfBounds] at *
  unfold gridRows gridColumns at *
  omega

/-- Witness for C10 at `r1 = r2 = 1/2`. -/
theorem getRandomCoordinate_in_bounds_witness :
    (0 : ℚ) ≤ 1/2 ∧ (1/2 : ℚ) < 1 ∧
      (¬ isOutOfBounds (getRandomCoordinate (1/2) (1/2)) ∧
        ¬ isOutOfBounds (initialState (1/2) (1/2)).food) :=
  ⟨by norm_num, by norm_num,
    (getRandomCoordinate_in_bounds (1/2) (1/2)
      (by norm_num) (by norm_num) (by norm_num) (by norm_num)).2.2⟩

end Snek

namespace Snek

/-! ### The four branches of `gameTick` -/

/-- Out-of-bounds branch of `gameTick`. -/
lemma gameTick_oob {s : AppState} (r1 r2 : ℚ)
    (h : isOutOfBounds (getNextCoordinate s.snake.headI s.currentDirection)) :
    gameTick s r1 r2 =
      { s with lastDirection := s.currentDirection, gameState := GameState.Loss } := by
  simp only [gameTick]
  rw [if_pos h]

/-- Self-collision branch of `gameTick`. -/
lemma gameTick_self_collision {s : AppState} (r1 r2 : ℚ)
    (h1 : ¬ isOutOfBounds (getNextCoordinate s.snake.headI s.currentDirection))
    (h2 : ∃ c ∈ s.snake,
      isSameCoordinate c (getNextCoordinate s.snake.headI s.currentDirection)) :
    gameTick s r1 r2 =
      { s with lastDirection := s.currentDirection, gameState := GameState.Loss } := by
  simp only [gameTick]
  rw [if_neg h1, if_pos h2]

/-- Food-capture branch of `gameTick`. -/
lemma gameTick_capture {s : AppState} (r1 r2 : ℚ)
    (h1 : ¬ isOutOfBounds (getNextCoordinate s.snake.headI s.currentDirection))
    (h2 : ¬ ∃ c ∈ s.snake,
      isSameCoordinate c (getNextCoordinate s.snake.headI s.currentDirection))
    (h3 : isSameCoordinate s.food (getNextCoordinate s.snake.headI s.currentDirection)) :
    gameTick s r1 r2 =
      { s with lastDirection := s.currentDirection,
               food := getRandomCoordinate r1 r2,
               snake := { x := s.food.x, y := s.food.y } :: s.snake } := by
  simp only [gameTick]
  rw [if_neg h1, if_neg h2, if_pos h3]

/-- Normal-move branch of `gameTick`. -/
lemma gameTick_normal {s : AppState} (r1 r2 : ℚ)
    (h1 : ¬ isOutOfBounds (getNextCoordinate s.snake.headI s.currentDirection))
    (h2 : ¬ ∃ c ∈ s.snake,
      isSameCoordinate c (getNextCoordinate s.snake.headI s.currentDirection))
    (h3 : ¬ isSameCoordinate s.food (getNextCoordinate s.snake.headI s.currentDirection)) :
    gameTick s r1 r2 =
      { s with lastDirection := s.currentDirection,
               snake := getNextCoordinate s.snake.headI s.currentDirection ::
                 s.snake.take (s.snake.length - 1) } := by
  simp only [gameTick]
  rw [if_neg h1, if_neg h2, if_neg h3]

/-! ### Claims about the individual tick branches -/

/-- C2: from a Playing state where the next coordinate is in bounds, not
on the pre-move snake, and equal to the food, `gameTick` prepends the
food's own coordinate as the new head, drops no tail segment (length
grows by exactly 1), draws a new food position from the random source,
and the status stays Playing. -/
theorem gameTick_food_capture (s : AppState) (r1 r2 : ℚ)
    (hp : s.gameState = GameState.Playing)
    (h1 : ¬ isOutOfBounds (getNextCoordinate s.snake.headI s.currentDirection))
    (h2 : ¬ ∃ c ∈ s.snake,
      isSameCoordinate c (getNextCoordinate s.snake.headI s.currentDirection))
    (h3 : s.food = getNextCoordinate s.snake.headI s.currentDirection) :
    (gameTick s r1 r2).snake = s.food :: s.snake ∧
    (gameTick s r1 r2).snake.headI = s.food ∧
    (gameTick s r1 r2).snake.length = s.snake.length + 1 ∧
    (gameTick s r1 r2).food = getRandomCoordinate r1 r2 ∧
    (gameTick s r1 r2).gameState = GameState.Playing := by
  have h3' : isSameCoordinate s.food
      (getNextCoordinate s.snake.headI s.currentDirection) :=
    isSameCoordinate_iff.mpr h3
  rw [gameTick_capture r1 r2 h1 h2 h3']
  exact ⟨rfl, rfl, rfl, rfl, hp⟩

/-- Concrete food-capture state: head `{10,10}` moving East onto food
`{11,10}`. -/
def foodCaptureState : AppState :=
  { gameState := GameState.Playing
    currentDirection := Direction.East
    lastDirection := Direction.East
    snake := [⟨10, 10⟩]
    food := ⟨11, 10⟩ }

/-- Witness for C2 at `foodCaptureState`. -/
theorem gameTick_food_capture_witness :
    (gameTick foodCaptureState 0 0).snake =
        foodCaptureState.food :: foodCaptureState.snake ∧
    (gameTick foodCaptureState 0 0).snake.headI = foodCaptureState.food ∧
    (gameTick foodCaptureState 0 0).snake.length =
        foodCaptureState.snake.length + 1 ∧
    (gameTick foodCaptureState 0 0).food = getRandomCoordinate 0 0 ∧
    (gameTick foodCaptureState 0 0).gameState = GameState.Playing :=
  gameTick_food_capture foodCaptureState 0 0 rfl
    (by decide) (by decide) (by decide)

/-- C3: from a Playing state where the next coordinate is in bounds but
coincides with some segment of the pre-move snake body (any segment,
including the tail), `gameTick` sets the status to Loss. -/
theorem gameTick_self_collision_loss (s : AppState) (r1 r2 : ℚ)
    (hp : s.gameState = GameState.Playing)
    (h1 : ¬ isOutOfBounds (getNextCoordinate s.snake.headI s.currentDirection))
    (h2 : ∃ c ∈ s.snake,
      isSameCoordinate c (getNextCoordinate s.snake.headI s.currentDirection)) :
    (gameTick s r1 r2).gameState = GameState.Loss := by
  rw [gameTick_self_collision r1 r2 h1 h2]

/-- Concrete self-collision state: snake `[{5,5},{4,5},{3,5}]` with
direction West, producing next coordinate `{4,5}`. -/
def selfCollisionState : AppState :=
  { gameState := GameState.Playing
    currentDirection := Direction.West
    lastDirection := Direction.West
    snake := [⟨5, 5⟩, ⟨4, 5⟩, ⟨3, 5⟩]
    food := ⟨0, 0⟩ }

/-- Witness for C3 at `selfCollisionState`. -/
theorem gameTick_self_collision_loss_witness :
    (gameTick selfCollisionState 0 0).gameState = GameState.Loss :=
  gameTick_self_collision_loss selfCollisionState 0 0 rfl
    (by decide) (by decide)

/-- C4: from a Playing state where the next coordinate is out of bounds,
`gameTick` sets the status to Loss, records `currentDirection` as the
new `lastDirection`, and leaves the snake, the food and
`currentDirection` unchanged. -/
theorem gameTick_out_of_bounds_loss (s : AppState) (r1 r2 : ℚ)
    (hp : s.gameState = GameState.Playing)
    (h : isOutOfBounds (getNextCoordinate s.snake.headI s.currentDirection)) :
    (gameTick s r1 r2).gameState = GameState.Loss ∧
    (gameTick s r1 r2).lastDirection = s.currentDirection ∧
    (gameTick s r1 r2).snake = s.snake ∧
    (gameTick s r1 r2).food = s.food ∧
    (gameTick s r1 r2).currentDirection = s.currentDirection := by
  rw [gameTick_oob r1 r2 h]
  exact ⟨rfl, rfl, rfl, rfl, rfl⟩

/-- Concrete out-of-bounds state: head `{0,5}` moving West, so the next
coordinate is `{-1,5}`. -/
def outOfBoundsState : AppState :=
  { gameState := GameState.Playing
    currentDirection := Direction.West
    lastDirection := Direction.West
    snake := [⟨0, 5⟩]
    food := ⟨3, 3⟩ }

/-- Witness for C4 at `outOfBoundsState`. -/
theorem gameTick_out_of_bounds_loss_witness :
    (gameTick outOfBoundsState 0 0).gameState = GameState.Loss ∧
    (gameTick outOfBoundsState 0 0).lastDirection =
        outOfBoundsState.currentDirection ∧
    (gameTick outOfBoundsState 0 0).snake = outOfBoundsState.snake ∧
    (gameTick outOfBoundsState 0 0).food = outOfBoundsState.food ∧
    (gameTick outOfBoundsState 0 0).currentDirection =
        outOfBoundsState.currentDirection :=
  gameTick_out_of_bounds_loss outOfBoundsState 0 0 rfl (by decide)

/-- C5: from a Playing state (nonempty snake, per the Playing-state
invariant) where the next coordinate is in bounds, not on the pre-move
snake and not equal to the food, `gameTick` replaces the snake by the
next coordinate prepended to the snake with its last segment dropped
(length unchanged), leaving the food and the Playing status unchanged. -/
theorem gameTick_normal_move (s : AppState) (r1 r2 : ℚ)
    (hp : s.gameState = GameState.Playing)
    (hne : s.snake ≠ [])
    (h1 : ¬ isOutOfBounds (getNextCoordinate s.snake.headI s.currentDirection))
    (h2 : ¬ ∃ c ∈ s.snake,
      isSameCoordinate c (getNextCoordinate s.snake.headI s.currentDirection))
    (h3 : ¬ isSameCoordinate s.food (getNextCoordinate s.snake.headI s.currentDirection)) :
    (gameTick s r1 r2).snake =
        getNextCoordinate s.snake.headI s.currentDirection ::
          s.snake.take (s.snake.length - 1) ∧
    (gameTick s r1 r2).snake.length = s.snake.length ∧
    (gameTick s r1 r2).food = s.food ∧
    (gameTick s r1 r2).gameState = GameState.Playing := by
  rw [gameTick_normal r1 r2 h1 h2 h3]
  refine ⟨rfl, ?_, rfl, hp⟩
  have hlen : s.snake.length ≠ 0 := by
    simpa [List.length_eq_zero] using hne
  simp [List.length_take]
  omega

/-- Concrete normal-move state: snake `[{10,10}]` moving East with food
`{15,15}`. -/
def normalMoveState : AppState :=
  { gameState := GameState.Playing
    currentDirection := Direction.East
    lastDirection := Direction.East
    snake := [⟨10, 10⟩]
    food := ⟨15, 15⟩ }

/-- Witness for C5 at `normalMoveState`: the new snake is `[{11,10}]`
and the status stays Playing. -/
theorem gameTick_normal_move_witness :
    (gameTick normalMoveState 0 0).snake = [⟨11, 10⟩] ∧
    (gameTick normalMoveState 0 0).snake.length =
        normalMoveState.snake.length ∧
    (gameTick normalMoveState 0 0).food = normalMoveState.food ∧
    (gameTick normalMoveState 0 0).gameState = GameState.Playing := by
  have h := gameTick_normal_move normalMoveState 0 0 rfl
    (by decide) (by decide) (by decide) (by decide)
  refine ⟨?_, h.2.1, h.2.2.1, h.2.2.2⟩
  rw [h.1]
  decide

end Snek

namespace Snek

/-! ### Food placement (C1) -/

/-- Evaluating the random draw at `r1 = r2 = 1/2` gives the grid
center. -/
lemma getRandomCoordinate_half_half : getRandomCoordinate (1/2) (1/2) = ⟨10, 10⟩ := by
  unfold getRandomCoordinate getRandomNumberFromRange gridRows gridColumns
  norm_num

/-- Evaluating the random draw at `r1 = 11/20`, `r2 = 1/2`. -/
lemma getRandomCoordinate_eleven : getRandomCoordinate (11/20) (1/2) = ⟨11, 10⟩ := by
  unfold getRandomCoordinate getRandomNumberFromRange gridRows gridColumns
  norm_num

/-- C1 (counterexample): with random outcomes `r1 = r2 = 1/2` (both in
`[0,1)`), the food placed at initial state creation is `{10,10}`, which
coincides with the snake's single segment (the center coordinate), so
placement does not avoid the snake for every random outcome. -/
theorem food_placed_on_snake_counterexample :
    ((0 : ℚ) ≤ 1/2 ∧ (1/2 : ℚ) < 1) ∧
    (initialState (1/2) (1/2)).food ∈ (initialState (1/2) (1/2)).snake := by
  refine ⟨⟨by norm_num, by norm_num⟩, ?_⟩
  simp only [initialState, List.mem_singleton]
  rw [getRandomCoordinate_half_half]
  decide

/-- C1 (amended): food placement performs no snake-avoidance re-draw:
there are outcomes of the random source in `[0,1)` for which the placed
food coordinate coincides with a snake segment at the moment of
placement, both at initial state creation and on food capture during
`gameTick`. -/
theorem food_placement_may_hit_snake :
    (∃ r1 r2 : ℚ, (0 ≤ r1 ∧ r1 < 1) ∧ (0 ≤ r2 ∧ r2 < 1) ∧
      (initialState r1 r2).food ∈ (initialState r1 r2).snake) ∧
    (∃ (s : AppState) (r1 r2 : ℚ), (0 ≤ r1 ∧ r1 < 1) ∧ (0 ≤ r2 ∧ r2 < 1) ∧
      s.gameState = GameState.Playing ∧
      s.food = getNextCoordinate s.snake.headI s.currentDirection ∧
      (gameTick s r1 r2).food ∈ (gameTick s r1 r2).snake) := by
  constructor
  · refine ⟨1/2, 1/2, ⟨by norm_num, by norm_num⟩, ⟨by norm_num, by norm_num⟩, ?_⟩
    simp only [initialState, List.mem_singleton]
    rw [getRandomCoordinate_half_half]
    decide
  · refine ⟨foodCaptureState, 11/20, 1/2, ⟨by norm_num, by norm_num⟩,
      ⟨by norm_num, by norm_num⟩, rfl, by decide, ?_⟩
    rw [gameTick_capture (11/20) (1/2) (by decide) (by decide) (by decide)]
    show getRandomCoordinate (11/20) (1/2) ∈
      ({ x := foodCaptureState.food.x, y := foodCaptureState.food.y } ::
        foodCaptureState.snake)
    rw [getRandomCoordinate_eleven]
    decide

/-! ### The arrow-key reversal guard (C8) -/

/-- The direction an arrow key maps to (statement vocabulary: `ArrowUp`
requests North, `ArrowDown` South, `ArrowLeft` West, `ArrowRight`
East). -/
def arrowDirection (code : String) : Option Direction :=
  if code = "ArrowUp" then some Direction.North
  else if code = "ArrowDown" then some Direction.South
  else if code = "ArrowLeft" then some Direction.West
  else if code = "ArrowRight" then some Direction.East
  else none

/-- The exact reverse of a direction (statement vocabulary). -/
def reverseDirection : Direction → Direction
  | Direction.North => Direction.South
  | Direction.South => Direction.North
  | Direction.West => Direction.East
  | Direction.East => Direction.West

/-- C8: for every state, an arrow-key event whose mapped direction is
the exact reverse of `lastDirection` is ignored (the state is returned
unchanged, in particular `currentDirection` is unchanged), while an
arrow-key event whose mapped direction is not that reverse sets
`currentDirection` to the mapped direction and changes nothing else. -/
theorem onKeyDown_arrow_reversal_guard (s : AppState) (code : String)
    (d : Direction) (r1 r2 : ℚ) (hmap : arrowDirection code = some d) :
    (d = reverseDirection s.lastDirection → onKeyDown code r1 r2 s = s) ∧
    (d ≠ reverseDirection s.lastDirection →
      onKeyDown code r1 r2 s = { s with currentDirection := d }) := by
  unfold arrowDirection at hmap
  split_ifs at hmap with hc1 hc2 hc3 hc4 <;>
    rw [Option.some.injEq] at hmap <;> subst hmap <;>
    constructor <;> intro hrev
  · have hlast : s.lastDirection = Direction.South := by
      cases h : s.lastDirection <;> rw [h] at hrev <;>
        simp [reverseDirection] at hrev <;> rfl
    subst hc1
    simp [onKeyDown, hlast]
  · have hlast : s.lastDirection ≠ Direction.South := by
      intro h; exact hrev (by rw [h]; rfl)
    subst hc1
    simp [onKeyDown, hlast]
  · have hlast : s.lastDirection = Direction.North := by
      cases h : s.lastDirection <;> rw [h] at hrev <;>
        simp [reverseDirection] at hrev <;> rfl
    subst hc2
    simp [onKeyDown, hlast]
  · have hlast : s.lastDirection ≠ Direction.North := by
      intro h; exact hrev (by rw [h]; rfl)
    subst hc2
    simp [onKeyDown, hlast]
  · have hlast : s.lastDirection = Direction.East := by
      cases h : s.lastDirection <;> rw [h] at hrev <;>
        simp [reverseDirection] at hrev <;> rfl
    subst hc3
    simp [onKeyDown, hlast]
  · have hlast : s.lastDirection ≠ Direction.East := by
      intro h; exact hrev (by rw [h]; rfl)
    subst hc3
    simp [onKeyDown, hlast]
  · have hlast : s.lastDirection = Direction.West := by
      cases h : s.lastDirection <;> rw [h] at hrev <;>
        simp [reverseDirection] at hrev <;> rfl
    subst hc4
    simp [onKeyDown, hlast]
  · have hlast : s.lastDirection ≠ Direction.West := by
      intro h; exact hrev (by rw [h]; rfl)
    subst hc4
    simp [onKeyDown, hlast]

/-- Concrete state for the C8 witness: `lastDirection = East`. -/
def arrowExampleState : AppState :=
  { gameState := GameState.Playing
    currentDirection := Direction.East
    lastDirection := Direction.East
    snake := [⟨10, 10⟩]
    food := ⟨5, 5⟩ }

/-- Witness for C8: with `lastDirection = East`, an `ArrowLeft` event
(mapping to West, the reverse of East) leaves the state unchanged. -/
theorem onKeyDown_arrow_reversal_guard_witness :
    onKeyDown "ArrowLeft" 0 0 arrowExampleState = arrowExampleState :=
  (onKeyDown_arrow_reversal_guard arrowExampleState "ArrowLeft"
    Direction.West 0 0 rfl).1 rfl

end Snek

namespace Snek

/-! ### The reachable-state invariants (C6, C9) -/

/-- Invariant: while Playing, the snake is nonempty, has pairwise
distinct segments, and every segment is on the grid. -/
def PlayingSnakeOk (s : AppState) : Prop :=
  s.gameState = GameState.Playing →
    s.snake ≠ [] ∧ s.snake.Nodup ∧ ∀ c ∈ s.snake, ¬ isOutOfBounds c

/-- The invariant holds in the initial state. -/
lemma playingSnakeOk_initial (r1 r2 : ℚ) : PlayingSnakeOk (initialState r1 r2) := by
  intro _
  refine ⟨by simp [initialState], by simp [initialState], ?_⟩
  intro c hc
  simp only [initialState, List.mem_singleton] at hc
  subst hc
  decide

/-- `gameTick` preserves the invariant. -/
lemma playingSnakeOk_tick {s : AppState} (r1 r2 : ℚ)
    (hs : PlayingSnakeOk s) (hp : s.gameState = GameState.Playing) :
    PlayingSnakeOk (gameTick s r1 r2) := by
  obtain ⟨hne, hnd, hb⟩ := hs hp
  by_cases h1 : isOutOfBounds (getNextCoordinate s.snake.headI s.currentDirection)
  · rw [gameTick_oob r1 r2 h1]
    intro hcon
    simp at hcon
  · by_cases h2 : ∃ c ∈ s.snake,
        isSameCoordinate c (getNextCoordinate s.snake.headI s.currentDirection)
    · rw [gameTick_self_collision r1 r2 h1 h2]
      intro hcon
      simp at hcon
    · have hnotmem : getNextCoordinate s.snake.headI s.currentDirection ∉ s.snake := by
        intro hmem
        exact h2 ⟨_, hmem, isSameCoordinate_iff.mpr rfl⟩
      by_cases h3 : isSameCoordinate s.food
          (getNextCoordinate s.snake.headI s.currentDirection)
      · rw [gameTick_capture r1 r2 h1 h2 h3]
        intro _
        obtain ⟨hx, hy⟩ := h3
        have hfood : ({ x := s.food.x, y := s.food.y } : Coordinate) =
            getNextCoordinate s.snake.headI s.currentDirection := by
          rw [hx, hy]
        refine ⟨by simp, ?_, ?_⟩
        · rw [List.nodup_cons]
          exact ⟨by rw [hfood]; exact hnotmem, hnd⟩
        · intro c hc
          rcases List.mem_cons.mp hc with hc | hc
          · rw [hc, hfood]; exact h1
          · exact hb c hc
      · rw [gameTick_normal r1 r2 h1 h2 h3]
        intro _
        refine ⟨by simp, ?_, ?_⟩
        · rw [List.nodup_cons]
          exact ⟨fun hmem => hnotmem (List.take_subset _ _ hmem),
            List.Nodup.sublist (List.take_sublist _ _) hnd⟩
        · intro c hc
          rcases List.mem_cons.mp hc with hc | hc
          · rw [hc]; exact h1
          · exact hb c (List.take_subset _ _ hc)

/-- `onKeyDown` preserves the invariant (the Space restart re-creates
it, the arrow branches leave snake and status untouched). -/
lemma playingSnakeOk_key {s : AppState} (code : String) (r1 r2 : ℚ)
    (hs : PlayingSnakeOk s) : PlayingSnakeOk (onKeyDown code r1 r2 s) := by
  unfold onKeyDown
  split_ifs with h1 h2 h3 h4 h5
  · intro _
    refine ⟨by simp, by simp, ?_⟩
    intro c hc
    simp only [List.mem_singleton] at hc
    subst hc
    decide
  all_goals exact fun hcon => hs hcon

/-- Every system step preserves the invariant. -/
lemma playingSnakeOk_step {s t : AppState} (h : Step s t)
    (hs : PlayingSnakeOk s) : PlayingSnakeOk t := by
  cases h with
  | tick r1 r2 hr1 hr2 hp => exact playingSnakeOk_tick r1 r2 hs hp
  | key code r1 r2 hr1 hr2 => exact playingSnakeOk_key code r1 r2 hs

/-- The invariant propagates along reachability. -/
lemma playingSnakeOk_reachable {s t : AppState} (h : Reachable s t)
    (hs : PlayingSnakeOk s) : PlayingSnakeOk t := by
  unfold Reachable at h
  induction h with
  | refl => exact hs
  | tail h1 h2 ih => exact playingSnakeOk_step h2 ih

/-- A duplicate-free list of on-grid coordinates has at most
20 × 20 = 400 elements. -/
lemma length_le_of_nodup_inBounds {l : List Coordinate}
    (hnd : l.Nodup) (hb : ∀ c ∈ l, ¬ isOutOfBounds c) : l.length ≤ 400 := by
  classical
  have hinj : Function.Injective (fun c : Coordinate => (c.x, c.y)) := by
    intro a b hab
    cases a; cases b
    simpa using hab
  have hm : (l.map fun c => (c.x, c.y)).Nodup := hnd.map hinj
  have hsub : (l.map fun c => (c.x, c.y)).toFinset ⊆
      Finset.Icc (0 : ℤ) 19 ×ˢ Finset.Icc (0 : ℤ) 19 := by
    intro p hp
    simp only [List.mem_toFinset, List.mem_map] at hp
    obtain ⟨c, hc, rfl⟩ := hp
    have hbc := hb c hc
    unfold isOutOfBounds gridRows gridColumns at hbc
    push_neg at hbc
    simp only [Finset.mem_product, Finset.mem_Icc]
    omega
  have hcard := Finset.card_le_card hsub
  rw [List.toFinset_card_of_nodup hm, List.length_map] at hcard
  have hgrid : (Finset.Icc (0 : ℤ) 19 ×ˢ Finset.Icc (0 : ℤ) 19).card = 400 := by
    rw [Finset.card_product, Int.card_Icc]
    rfl
  omega

/-- C6: in every state reachable from the initial state whose status is
Playing, the snake's segments are pairwise distinct and its length lies
in `[1, 400]`; reachability closes the initial state under `gameTick`
and all key-input transitions. -/
theorem reachable_playing_snake_invariant (r1 r2 : ℚ)
    (hr1 : 0 ≤ r1) (hr2 : r1 < 1) (hr3 : 0 ≤ r2) (hr4 : r2 < 1)
    (s : AppState) (h : Reachable (initialState r1 r2) s)
    (hp : s.gameState = GameState.Playing) :
    s.snake.Nodup ∧ 1 ≤ s.snake.length ∧ s.snake.length ≤ 400 := by
  obtain ⟨hne, hnd, hb⟩ :=
    playingSnakeOk_reachable h (playingSnakeOk_initial r1 r2) hp
  exact ⟨hnd, List.length_pos.mpr hne, length_le_of_nodup_inBounds hnd hb⟩

/-- Witness for C6 at the initial state itself (reachable in zero
steps). -/
theorem reachable_playing_snake_invariant_witness :
    (initialState 0 0).snake.Nodup ∧
    1 ≤ (initialState 0 0).snake.length ∧
    (initialState 0 0).snake.length ≤ 400 :=
  reachable_playing_snake_invariant 0 0 (by norm_num) (by norm_num)
    (by norm_num) (by norm_num) (initialState 0 0)
    Relation.ReflTransGen.refl rfl

/-- `gameTick` either sets the status to Loss or leaves it unchanged. -/
lemma gameTick_gameState_cases (s : AppState) (r1 r2 : ℚ) :
    (gameTick s r1 r2).gameState = GameState.Loss ∨
      (gameTick s r1 r2).gameState = s.gameState := by
  simp only [gameTick]
  split_ifs <;> simp

/-- `onKeyDown` either sets the status to Playing (restart) or leaves
it unchanged. -/
lemma onKeyDown_gameState_cases (s : AppState) (code : String) (r1 r2 : ℚ) :
    (onKeyDown code r1 r2 s).gameState = GameState.Playing ∨
      (onKeyDown code r1 r2 s).gameState = s.gameState := by
  unfold onKeyDown
  split_ifs <;> simp

/-- No system step can introduce the Win status. -/
lemma noWin_step {s t : AppState} (h : Step s t)
    (hs : s.gameState ≠ GameState.Win) : t.gameState ≠ GameState.Win := by
  cases h with
  | tick r1 r2 hr1 hr2 hp =>
    rcases gameTick_gameState_cases s r1 r2 with h' | h' <;> rw [h']
    · simp
    · exact hs
  | key code r1 r2 hr1 hr2 =>
    rcases onKeyDown_gameState_cases s code r1 r2 with h' | h' <;> rw [h']
    · simp
    · exact hs

/-- C9: the status Win is never assigned: `gameTick` only ever produces
Loss or the input status, every key-input transition only ever produces
Playing or the input status, and consequently no state reachable from
the initial state has status Win. -/
theorem win_never_assigned :
    (∀ (s : AppState) (r1 r2 : ℚ),
      (gameTick s r1 r2).gameState = GameState.Loss ∨
        (gameTick s r1 r2).gameState = s.gameState) ∧
    (∀ (s : AppState) (code : String) (r1 r2 : ℚ),
      (onKeyDown code r1 r2 s).gameState = GameState.Playing ∨
        (onKeyDown code r1 r2 s).gameState = s.gameState) ∧
    (∀ (r1 r2 : ℚ) (s : AppState), Reachable (initialState r1 r2) s →
      s.gameState ≠ GameState.Win) := by
  refine ⟨gameTick_gameState_cases, onKeyDown_gameState_cases, ?_⟩
  intro r1 r2 s h
  unfold Reachable at h
  induction h with
  | refl => simp [initialState]
  | tail h1 h2 ih => exact noWin_step h2 ih

/-- Witness for C9 at the initial state and concrete transitions. -/
theorem win_never_assigned_witness :
    ((gameTick (initialState 0 0) 0 0).gameState = GameState.Loss ∨
      (gameTick (initialState 0 0) 0 0).gameState =
        (initialState 0 0).gameState) ∧
    ((onKeyDown "Space" 0 0 (initialState 0 0)).gameState =
        GameState.Playing ∨
      (onKeyDown "Space" 0 0 (initialState 0 0)).gameState =
        (initialState 0 0).gameState) ∧
    (initialState 0 0).gameState ≠ GameState.Win :=
  ⟨win_never_assigned.1 (initialState 0 0) 0 0,
    win_never_assigned.2.1 (initialState 0 0) "Space" 0 0,
    win_never_assigned.2.2 0 0 (initialState 0 0) Relation.ReflTransGen.refl⟩

end Snek
